import Mathlib

/-!
Verification of the Change Analysis & Template Recommendation Engine
(`projects/unit3/build-mcp-server/starter/server.py`,
`projects/unit3/build-mcp-server/starter/gemini_service.py`,
`projects/unit3/github-actions-integration/starter/server.py`).

The Python sources are shallowly embedded: strings are Lean `String`,
Python lists are Lean `List`, dictionaries with a known key set are
structures, JSON tool results are structures or `Except`, and the
results of `subprocess.run` are passed in as explicit `CommandResult`
values.  Helper functions model the exact semantics of the Python
string operations used by the code (`split`, `join`, `strip`, `lower`,
substring tests, negative-index slicing, lexicographic comparison).
-/

/-- Python list-character lexicographic strict comparison: models `<` and `>`
on Python `str` values, which compare code-point by code-point. -/
def lexLt : List Char → List Char → Bool
  | [], [] => false
  | [], _ :: _ => true
  | _ :: _, [] => false
  | a :: as, b :: bs => if a < b then true else if b < a then false else lexLt as bs

/-- Models Python `a < b` on strings (and `b > a`). -/
def pyStrLt (a b : String) : Bool := lexLt a.data b.data

/-- Models Python `a <= b` on strings. -/
def pyStrLe (a b : String) : Bool := !(lexLt b.data a.data)

/-- Whether the first list is an initial segment of the second. -/
def headMatch : List Char → List Char → Bool
  | [], _ => true
  | _ :: _, [] => false
  | a :: as, b :: bs => a == b && headMatch as bs

/-- Whether the first list occurs contiguously inside the second. -/
def subMatch (needle : List Char) : List Char → Bool
  | [] => headMatch needle []
  | l@(_ :: rest) => headMatch needle l || subMatch needle rest

/-- Models the Python substring test `needle in hay`. -/
def strContains (hay needle : String) : Bool := subMatch needle.data hay.data

/-- Models Python `s.endswith(t)`. -/
def strEndsWith (s t : String) : Bool := headMatch t.data.reverse s.data.reverse

/-- Models Python `s.lower()` (ASCII case folding). -/
def pyLower (s : String) : String := String.mk (s.data.map Char.toLower)

/-- Models Python `s.strip()`: drop whitespace from both ends. -/
def pyStrip (s : String) : String :=
  String.mk (((s.data.dropWhile Char.isWhitespace).reverse.dropWhile Char.isWhitespace).reverse)

/-- Models Python `s.split(sep)` for a one-character separator `sep`. -/
def pySplit (sep : Char) (s : String) : List String :=
  (s.data.splitOn sep).map (fun cs => String.mk cs)

/-- Models Python `sep.join(ls)` for a one-character separator `sep`. -/
def pyJoin (sep : Char) (ls : List String) : String :=
  String.mk (List.intercalate [sep] (ls.map String.data))

/-- Models Python `s.split(sep, 1)` restricted to the case the code uses:
`some (before, after)` when `sep` occurs (split at the first occurrence),
`none` when it does not (the code then skips the line). -/
def splitFirst (sep : Char) : List Char → Option (List Char × List Char)
  | [] => none
  | c :: cs =>
    if c = sep then some ([], cs)
    else match splitFirst sep cs with
      | none => none
      | some (l, r) => some (c :: l, r)

/-- Models the Python slice `l[i:]` for an arbitrary integer `i`
(negative indices count from the end, clamped at the list bounds). -/
def pySliceFrom (i : Int) (l : List α) : List α :=
  if 0 ≤ i then l.drop i.toNat else l.drop (l.length - (-i).toNat)

/-! ## build-mcp-server/starter/server.py -/

/-- Result of one `subprocess.run` git invocation, as inspected by the code. -/
structure CommandResult where
  stdout : String
  stderr : String
  exitCode : Int
deriving DecidableEq

/-- One entry of the parsed changed-file list: a dict with keys
`status` and `filename` (server.py, analyze_file_changes). -/
structure ChangedFile where
  status : String
  filename : String
deriving DecidableEq

/-- One iteration of the parsing loop of `analyze_file_changes`:
`if line:` skips empty lines, `line.split(chr(9), 1)` must yield exactly
a status and a filename, otherwise the line is skipped. -/
def parseLine (line : String) : Option ChangedFile :=
  if line = "" then none
  else match splitFirst '\t' line.data with
    | some (st, fn) => some { status := String.mk st, filename := String.mk fn }
    | none => none

/-- The changed-file parsing of `analyze_file_changes`:
`files_result.stdout.strip().split(chr(10))`, each line parsed or skipped. -/
def parseChangedFiles (stdout : String) : List ChangedFile :=
  (pySplit '\n' (pyStrip stdout)).filterMap parseLine

/-- The `truncation_message` f-string of `analyze_file_changes`. -/
def buildTruncMsg (shown total : Nat) : String :=
  ("Diff truncated to ") ++ toString shown ++ (" lines (total: ") ++ toString total ++ (" lines)")

/-- The diff-related keys the build-server `analyze_file_changes` result may
carry; a key absent from the JSON result is `none`. -/
structure BuildDiffFields where
  diff : Option String
  diff_truncated : Option Bool
  total_diff_lines : Option Nat
  shown_diff_lines : Option Nat
  truncation_message : Option String
deriving DecidableEq

/-- The diff-truncation block of the build-server `analyze_file_changes`
(the `diff_returncode == 0` branch): split the diff stdout on newlines,
truncate to `max_diff_lines` lines when over budget. -/
def buildDiffSection (stdout : String) (max_diff_lines : Nat) : BuildDiffFields :=
  let diff_lines := pySplit '\n' stdout
  if diff_lines.length > max_diff_lines then
    { diff := some (pyJoin '\n' (diff_lines.take max_diff_lines)),
      diff_truncated := some true,
      total_diff_lines := some diff_lines.length,
      shown_diff_lines := some max_diff_lines,
      truncation_message := some (buildTruncMsg max_diff_lines diff_lines.length) }
  else
    { diff := some stdout,
      diff_truncated := some false,
      total_diff_lines := some diff_lines.length,
      shown_diff_lines := none,
      truncation_message := none }

/-- The JSON object returned by the build-server `analyze_file_changes`
on success; optional keys are `none` when the code does not set them. -/
structure BuildAnalysis where
  base_branch : String
  files_changed : Nat
  files : List ChangedFile
  diff : Option String
  diff_truncated : Option Bool
  total_diff_lines : Option Nat
  shown_diff_lines : Option Nat
  truncation_message : Option String
  diff_error : Option String
deriving DecidableEq

/-- The build-server `analyze_file_changes`, as a function of the two git
command results it consumes.  A non-zero exit of the name-status command
returns the error JSON (error message and stripped stderr) without looking
at the diff command at all. -/
def analyze_file_changes_build (base_branch : String) (filesResult diffResult : CommandResult)
    (include_diff : Bool) (max_diff_lines : Nat) : Except (String × String) BuildAnalysis :=
  if filesResult.exitCode ≠ 0 then
    Except.error (("Failed to get changed files"), pyStrip filesResult.stderr)
  else
    let changed_files := parseChangedFiles filesResult.stdout
    if include_diff then
      if diffResult.exitCode = 0 then
        let d := buildDiffSection diffResult.stdout max_diff_lines
        Except.ok { base_branch := base_branch, files_changed := changed_files.length,
                    files := changed_files, diff := d.diff, diff_truncated := d.diff_truncated,
                    total_diff_lines := d.total_diff_lines, shown_diff_lines := d.shown_diff_lines,
                    truncation_message := d.truncation_message, diff_error := none }
      else
        Except.ok { base_branch := base_branch, files_changed := changed_files.length,
                    files := changed_files, diff := none, diff_truncated := none,
                    total_diff_lines := none, shown_diff_lines := none,
                    truncation_message := none, diff_error := some (pyStrip diffResult.stderr) }
    else
      Except.ok { base_branch := base_branch, files_changed := changed_files.length,
                  files := changed_files, diff := none, diff_truncated := none,
                  total_diff_lines := none, shown_diff_lines := none,
                  truncation_message := none, diff_error := none }

/-- A template file found by `TEMPLATES_DIR.glob` in `get_pr_templates`:
its name, its stem, and the outcome of reading it (the error carries
`str(e)` of the raised exception). -/
structure TemplateFile where
  filename : String
  stem : String
  readResult : Except String String

/-- One entry of the `get_pr_templates` JSON list.  The code sets
`name` and `type` to the file stem; a failed read stores an `error`
message instead of `content`. -/
structure TemplateEntry where
  filename : String
  name : String
  type : String
  content : Option String
  error : Option String
deriving DecidableEq

/-- Per-file body of the `get_pr_templates` loop: read the file, or record
the per-template error and continue. -/
def mkEntry (f : TemplateFile) : TemplateEntry :=
  match f.readResult with
  | Except.ok c =>
    { filename := f.filename, name := f.stem, type := f.stem, content := some c, error := none }
  | Except.error e =>
    { filename := f.filename, name := f.stem, type := f.stem, content := none,
      error := some (("Failed to read template: ") ++ e) }

/-- Insertion into a name-sorted list, keeping existing entries with
less-or-equal names first (stable, like Python list.sort). -/
def insertByName (e : TemplateEntry) : List TemplateEntry → List TemplateEntry
  | [] => [e]
  | x :: xs => if pyStrLe x.name e.name then x :: insertByName e xs else e :: x :: xs

/-- Models `templates.sort(key=lambda x: x.get(quote-name, quote-blank))`. -/
def sortByName (l : List TemplateEntry) : List TemplateEntry :=
  l.foldl (fun acc e => insertByName e acc) []

/-- The build-server `get_pr_templates`, as a function of whether the
template directory exists and of the globbed files with their read
outcomes.  A missing directory fails the whole load; a single unreadable
file only produces an error entry. -/
def get_pr_templates_build (dirExists : Bool) (files : List TemplateFile) :
    Except String (List TemplateEntry) :=
  if dirExists then Except.ok (sortByName (files.map mkEntry))
  else Except.error ("Templates directory not found")

/-- The `type_mapping` dict of the build-server `suggest_template`. -/
def type_mapping (t : String) : Option (List String) :=
  if t = "bug" then some ["bug", "feature", "refactor"]
  else if t = "fix" then some ["bug", "feature", "refactor"]
  else if t = "feature" then some ["feature", "bug", "refactor"]
  else if t = "enhancement" then some ["feature", "bug", "refactor"]
  else if t = "docs" then some ["docs", "feature", "refactor"]
  else if t = "documentation" then some ["docs", "feature", "refactor"]
  else if t = "refactor" then some ["refactor", "feature", "bug"]
  else if t = "refactoring" then some ["refactor", "feature", "bug"]
  else if t = "test" then some ["test", "feature", "bug"]
  else if t = "tests" then some ["test", "feature", "bug"]
  else if t = "testing" then some ["test", "feature", "bug"]
  else if t = "performance" then some ["performance", "refactor", "feature"]
  else if t = "perf" then some ["performance", "refactor", "feature"]
  else if t = "security" then some ["security", "bug", "feature"]
  else if t = "sec" then some ["security", "bug", "feature"]
  else none

/-- `type_mapping.get(normalized_type, [normalized_type, ...])`. -/
def prioritiesFor (normalized : String) : List String :=
  match type_mapping normalized with
  | some l => l
  | none => [normalized, "feature", "bug"]

/-- The dict comprehension `available_templates` maps each type to the LAST
entry of that type (later dict insertions overwrite); looking a type up
therefore finds the last matching entry. -/
def lookupLast (templates : List TemplateEntry) (ty : String) : Option TemplateEntry :=
  templates.reverse.find? (fun t => t.type == ty)

/-- The JSON object returned by the build-server `suggest_template` on
success (free-text fields that no claim mentions are omitted). -/
structure SuggestResult where
  changes_summary : String
  change_type : String
  recommended_type : Option String
  template : Option TemplateEntry
  available_templates : List String
deriving DecidableEq

/-- The build-server `suggest_template`, as a function of the loaded
template catalog: a failed load is propagated as an error; otherwise
normalize the declared type, walk its priority list over the catalog,
and fall back to the first catalog entry (or `none` if the catalog is
empty — the code returns a success object with null template then). -/
def suggest_template_build (changes_summary change_type : String)
    (loaded : Except String (List TemplateEntry)) : Except String SuggestResult :=
  match loaded with
  | Except.error e => Except.error (("Cannot suggest template - failed to load templates: ") ++ e)
  | Except.ok templates_data =>
    let normalized_type := pyStrip (pyLower change_type)
    let template_priorities := prioritiesFor normalized_type
    let recommended := template_priorities.findSome? (fun ty => lookupLast templates_data ty)
    let final := match recommended with
      | some t => some t
      | none => templates_data.head?
    Except.ok { changes_summary := changes_summary, change_type := change_type,
                recommended_type := final.map (fun t => t.type),
                template := final,
                available_templates := templates_data.map (fun t => t.type) }

/-! ## build-mcp-server/starter/gemini_service.py, `_analyze_file_patterns` -/

/-- The `patterns` dict of `_analyze_file_patterns` (the `directories` set
is modelled as a duplicate-free list). -/
structure GPatterns where
  total_files : Nat
  file_types : List (String × Nat)
  change_types : List (String × Nat)
  directories : List String
  has_tests : Bool
  has_docs : Bool
  has_config : Bool
deriving DecidableEq

/-- `d[k] = d.get(k, 0) + 1` on a dict modelled as an association list. -/
def bumpCount (k : String) : List (String × Nat) → List (String × Nat)
  | [] => [(k, 1)]
  | (k₀, n) :: rest => if k₀ == k then (k₀, n + 1) :: rest else (k₀, n) :: bumpCount k rest

/-- `d.get(k, 0)` on a dict modelled as an association list. -/
def countOf (k : String) (l : List (String × Nat)) : Nat :=
  match l.find? (fun p => p.1 == k) with
  | some p => p.2
  | none => 0

/-- `s.add(k)` on a set modelled as a duplicate-free list. -/
def setInsert (k : String) (l : List String) : List String :=
  if l.contains k then l else l ++ [k]

/-- The extension bump key: `filename.split(chr(46))[-1].lower()` when the
filename contains a dot. -/
def extKey (filename : String) : Option String :=
  if strContains filename (".") then some (pyLower ((pySplit '.' filename).getLastD (""))) else none

/-- The directory key: `filename.split(chr(47))[0]` when the filename
contains a slash. -/
def dirKey (filename : String) : Option String :=
  if strContains filename ("/") then some ((pySplit '/' filename).headD ("")) else none

def testIndicators : List String := ["test", "spec", "__test__"]

def docIndicators : List String := ["readme", "doc", ".md", "changelog"]

def configIndicators : List String := ["config", "settings", ".json", ".yaml", ".toml", ".env"]

/-- One iteration of the `_analyze_file_patterns` loop.  The loop body
updates independent keys of the `patterns` dict, so it is written as one
record update: bump the extension count when the name has a dot, bump the
status count, add the first path component when the name has a slash, and
latch the three has-flags when an indicator occurs in the lowered name. -/
def patternStep (p : GPatterns) (file_info : ChangedFile) : GPatterns :=
  let filename := file_info.filename
  let filename_lower := pyLower filename
  { total_files := p.total_files,
    file_types := match extKey filename with
      | some ext => bumpCount ext p.file_types
      | none => p.file_types,
    change_types := bumpCount file_info.status p.change_types,
    directories := match dirKey filename with
      | some d => setInsert d p.directories
      | none => p.directories,
    has_tests := p.has_tests || testIndicators.any (fun t => strContains filename_lower t),
    has_docs := p.has_docs || docIndicators.any (fun t => strContains filename_lower t),
    has_config := p.has_config || configIndicators.any (fun t => strContains filename_lower t) }

/-- `GeminiService._analyze_file_patterns`: `total_files` is set up front to
`len(changed_files)`, the remaining counters are accumulated per file. -/
def analyze_file_patterns (changed_files : List ChangedFile) : GPatterns :=
  changed_files.foldl patternStep
    { total_files := changed_files.length, file_types := [], change_types := [],
      directories := [], has_tests := false, has_docs := false, has_config := false }

/-! ## Change Classifier and ChangeSet aggregates, modelled from the spec

The ordered-rule classifier of spec section 4.3 and the
additions/deletions aggregation of spec section 4.2 step 3 belong to
repository variants that are not part of the sources here (the sources
only carry the pattern counters above), so they are modelled from the
spec text. -/

/-- File status enum of the spec data model. -/
inductive FileStatus
  | added | modified | deleted | renamed | copied | typeChanged | unmerged | unknown
deriving DecidableEq

/-- FileChange of the spec data model. -/
structure SpecFileChange where
  path : String
  status : FileStatus
  additions : Nat
  deletions : Nat
deriving DecidableEq

/-- Modelled from the spec: a file matches the test indicator when its name
contains test or spec (case-insensitive). -/
def isTestIndicator (path : String) : Bool :=
  strContains (pyLower path) ("test") || strContains (pyLower path) ("spec")

/-- Modelled from the spec: documentation indicator — `.md`, `.rst` or
`.txt` extension, or doc in the path. -/
def isDocIndicator (path : String) : Bool :=
  strEndsWith path (".md") || strEndsWith path (".rst") || strEndsWith path (".txt") ||
    strContains (pyLower path) ("doc")

/-- Modelled from the spec: configuration-like extensions. -/
def isConfigFile (path : String) : Bool :=
  [".json", ".yaml", ".yml", ".toml", ".ini"].any (fun e => strEndsWith path e)

/-- Modelled from the spec: primary-source-language extensions (the spec
does not fix the set; a representative one is used). -/
def isSourceFile (path : String) : Bool :=
  [".py", ".js", ".ts", ".jsx", ".tsx", ".java", ".go", ".rs", ".c", ".cpp", ".rb"].any
    (fun e => strEndsWith path e)

inductive Confidence | low | medium | high
deriving DecidableEq

structure ClassificationResult where
  recommended_type : String
  confidence : Confidence
deriving DecidableEq

/-- Modelled from the spec: the ordered-rule change classifier of spec
section 4.3 — first matching rule wins, percentages measured against
`total_files`. -/
def classify (files : List SpecFileChange) : ClassificationResult :=
  let total := files.length
  let testCount := (files.filter (fun f => isTestIndicator f.path)).length
  let docsCount := (files.filter (fun f => isDocIndicator f.path)).length
  let configCount := (files.filter (fun f => isConfigFile f.path)).length
  let sourceCount := (files.filter (fun f => isSourceFile f.path)).length
  if 0 < total ∧ testCount = total then { recommended_type := "test", confidence := Confidence.high }
  else if 80 * total ≤ 100 * docsCount then { recommended_type := "docs", confidence := Confidence.high }
  else if sourceCount < configCount then { recommended_type := "refactor", confidence := Confidence.medium }
  else if files.any (fun f => f.status == FileStatus.added) then { recommended_type := "feature", confidence := Confidence.high }
  else { recommended_type := "refactor", confidence := Confidence.medium }

/-- Modelled from the spec: `total_additions` accumulated over the
FileChange sequence. -/
def totalAdditions (files : List SpecFileChange) : Nat :=
  files.foldl (fun acc f => acc + f.additions) 0

/-- Modelled from the spec: `total_deletions` accumulated over the
FileChange sequence. -/
def totalDeletions (files : List SpecFileChange) : Nat :=
  files.foldl (fun acc f => acc + f.deletions) 0

/-! ## github-actions-integration/starter/server.py -/

/-- The two-line truncation notice appended to the diff text by the
github-actions-integration `analyze_file_changes`. -/
def ghaNotice (shown total : Nat) : String :=
  ("\n\n... Output truncated. Showing ") ++ toString shown ++ (" of ") ++ toString total ++
    (" lines ...\n... Use max_diff_lines parameter to see more ...")

/-- The diff content and truncation flag computed by the
github-actions-integration `analyze_file_changes` when `include_diff`. -/
structure GhaDiff where
  text : String
  truncated : Bool
deriving DecidableEq

/-- The diff-truncation block of the github-actions-integration
`analyze_file_changes`: on over-budget diffs the notice is appended to the
truncated text itself. -/
def ghaDiffSection (stdout : String) (max_diff_lines : Nat) : GhaDiff :=
  let diff_lines := pySplit '\n' stdout
  if diff_lines.length > max_diff_lines then
    { text := pyJoin '\n' (diff_lines.take max_diff_lines) ++ ghaNotice max_diff_lines diff_lines.length,
      truncated := true }
  else
    { text := stdout, truncated := false }

/-- The JSON object returned by the github-actions-integration
`analyze_file_changes` on success (raw stdout strings are kept whole). -/
structure GhaAnalysis where
  base_branch : String
  files_changed : String
  statistics : String
  commits : String
  diff : String
  truncated : Bool
  total_diff_lines : Nat
deriving DecidableEq

/-- The github-actions-integration `analyze_file_changes`, as a function of
the four git command results it consumes.  Only the first (name-status)
command runs with `check=True`; its failure raises `CalledProcessError`,
caught and returned as a Git error before any later command matters. -/
def analyze_file_changes_gha (base_branch : String)
    (filesResult statResult diffResult commitsResult : CommandResult)
    (include_diff : Bool) (max_diff_lines : Nat) : Except String GhaAnalysis :=
  if filesResult.exitCode ≠ 0 then
    Except.error (("Git error: ") ++ filesResult.stderr)
  else
    let ds := if include_diff then ghaDiffSection diffResult.stdout max_diff_lines
      else { text := ("Diff not included (set include_diff=true to see full diff)"), truncated := false }
    Except.ok { base_branch := base_branch, files_changed := filesResult.stdout,
                statistics := statResult.stdout, commits := commitsResult.stdout,
                diff := ds.text, truncated := ds.truncated,
                total_diff_lines := if include_diff then (pySplit '\n' diffResult.stdout).length else 0 }

/-- The `DEFAULT_TEMPLATES` dict (filename, display type), in insertion
order. -/
def DEFAULT_TEMPLATES_gha : List (String × String) :=
  [("bug.md", "Bug Fix"), ("feature.md", "Feature"), ("docs.md", "Documentation"),
   ("refactor.md", "Refactor"), ("test.md", "Test"), ("performance.md", "Performance"),
   ("security.md", "Security")]

/-- One entry of the github-actions-integration `get_pr_templates` list. -/
structure GhaTemplate where
  filename : String
  type : String
  content : String
deriving DecidableEq

/-- The list comprehension of the github-actions-integration
`get_pr_templates`: reads happen in dict order and the FIRST failing
`read_text` raises, aborting the whole load (the error carries the
offending filename). -/
def ghaLoadTemplates (rd : String → Option String) : List (String × String) → Except String (List GhaTemplate)
  | [] => Except.ok []
  | p :: rest =>
    match rd p.1 with
    | none => Except.error p.1
    | some c =>
      match ghaLoadTemplates rd rest with
      | Except.ok ts => Except.ok ({ filename := p.1, type := p.2, content := c } :: ts)
      | Except.error e => Except.error e

/-- The github-actions-integration `get_pr_templates`, as a function of the
filesystem read outcomes. -/
def get_pr_templates_gha (rd : String → Option String) : Except String (List GhaTemplate) :=
  ghaLoadTemplates rd DEFAULT_TEMPLATES_gha

/-- The `TYPE_MAPPING` dict of github-actions-integration server.py. -/
def TYPE_MAPPING_gha (t : String) : Option String :=
  if t = "bug" then some ("bug.md")
  else if t = "fix" then some ("bug.md")
  else if t = "feature" then some ("feature.md")
  else if t = "enhancement" then some ("feature.md")
  else if t = "docs" then some ("docs.md")
  else if t = "documentation" then some ("docs.md")
  else if t = "refactor" then some ("refactor.md")
  else if t = "cleanup" then some ("refactor.md")
  else if t = "test" then some ("test.md")
  else if t = "testing" then some ("test.md")
  else if t = "performance" then some ("performance.md")
  else if t = "optimization" then some ("performance.md")
  else if t = "security" then some ("security.md")
  else none

/-- The github-actions-integration `suggest_template` result (free-text
fields that no claim mentions are omitted). -/
structure GhaSuggestion where
  recommended_template : GhaTemplate
  template_content : String
deriving DecidableEq

/-- The github-actions-integration `suggest_template`: map the lowered type
to a template file (default feature.md), pick the first template with that
filename, else `templates[0]` — which raises IndexError on an empty list
(Python evaluates the `next` default eagerly). -/
def suggest_template_gha (change_type : String) (templates : List GhaTemplate) :
    Except String GhaSuggestion :=
  let template_file := match TYPE_MAPPING_gha (pyLower change_type) with
    | some f => f
    | none => "feature.md"
  match templates.head? with
  | none => Except.error ("IndexError: list index out of range")
  | some t₀ =>
    let selected := match templates.find? (fun t => t.filename == template_file) with
      | some t => t
      | none => t₀
    Except.ok { recommended_template := selected, template_content := selected.content }

/-- A `workflow_run` sub-dict of a webhook event; the code reads its
`name` and `status` keys with `.get`, which may be absent. -/
structure WorkflowRun where
  name : Option String
  status : Option String
deriving DecidableEq

/-- A webhook event as read by the two Actions tools.  The model covers
events carrying a `timestamp` string (the shape the webhook ingester
writes); `workflow_run` may be absent. -/
structure WEvent where
  workflow_run : Option WorkflowRun
  timestamp : String
deriving DecidableEq

/-- A value of the `latest_status` dict of `get_workflow_status`. -/
structure WStatus where
  status : Option String
  timestamp : String
deriving DecidableEq

/-- `event[quote-workflow_run].get(quote-name)`. -/
def runName (e : WEvent) : Option String :=
  match e.workflow_run with
  | some r => r.name
  | none => none

/-- `event[quote-workflow_run].get(quote-status)`. -/
def runStatus (e : WEvent) : Option String :=
  match e.workflow_run with
  | some r => r.status
  | none => none

/-- The `{status, timestamp}` value stored for an event. -/
def statusOf (e : WEvent) : WStatus :=
  { status := runStatus e, timestamp := e.timestamp }

/-- Dict lookup on `latest_status` (keys are possibly-missing workflow
names, so the key type is `Option String`). -/
def alookup (k : Option String) : List (Option String × WStatus) → Option WStatus
  | [] => none
  | (k₀, v) :: rest => if k₀ = k then some v else alookup k rest

/-- Dict update of an existing key (Python dicts keep the original
insertion position). -/
def areplace (k : Option String) (v : WStatus) :
    List (Option String × WStatus) → List (Option String × WStatus)
  | [] => []
  | (k₀, v₀) :: rest => if k₀ = k then (k₀, v) :: rest else (k₀, v₀) :: areplace k v rest

/-- One iteration of the `get_workflow_status` loop: a workflow not seen yet
is inserted; an existing entry is replaced only when the new timestamp
compares strictly greater (Python string `>`). -/
def statusStep (acc : List (Option String × WStatus)) (e : WEvent) :
    List (Option String × WStatus) :=
  match alookup (runName e) acc with
  | none => acc ++ [(runName e, statusOf e)]
  | some prev =>
    if pyStrLt prev.timestamp e.timestamp then areplace (runName e) (statusOf e) acc else acc

/-- The two filters of `get_workflow_status`: keep events with a
`workflow_run`, then (for a truthy workflow_name, i.e. a non-empty string)
keep events with exactly that name. -/
def applyStatusFilters (events : List WEvent) (workflow_name : Option String) : List WEvent :=
  let wf := events.filter (fun e => e.workflow_run.isSome)
  match workflow_name with
  | some s => if s = "" then wf else wf.filter (fun e => decide (runName e = some s))
  | none => wf

/-- The grouping loop of `get_workflow_status` over the filtered events. -/
def get_workflow_status (events : List WEvent) (workflow_name : Option String) :
    List (Option String × WStatus) :=
  (applyStatusFilters events workflow_name).foldl statusStep []

/-- Per-key view of one loop iteration (used to characterise the loop). -/
def best1 (cur : Option WStatus) (e : WEvent) : Option WStatus :=
  match cur with
  | none => some (statusOf e)
  | some p => if pyStrLt p.timestamp e.timestamp then some (statusOf e) else some p

/-- Per-key view of the whole loop. -/
def mergeBest (cur : Option WStatus) (l : List WEvent) : Option WStatus :=
  l.foldl best1 cur

/-- Reference selection function: the event with the greatest timestamp,
the EARLIEST in log order among equal timestamps. -/
def firstMaxTs : List WEvent → Option WEvent
  | [] => none
  | e :: rest =>
    match firstMaxTs rest with
    | none => some e
    | some m => if pyStrLt e.timestamp m.timestamp then some m else some e

/-- State of the `github_events.json` file as seen by one tool call:
absent, present but unreadable/unparseable (the message is `str(e)` of the
raised exception), or successfully parsed. -/
inductive EventsFileState
  | absent
  | unreadable (msg : String)
  | present (events : List WEvent)
deriving DecidableEq

/-- `get_recent_actions_events`: missing file yields the empty list; an
exception while reading or parsing yields the error object; otherwise the
Python slice `events[-limit:]`. -/
def get_recent_actions_events_tool : EventsFileState → Int → Except String (List WEvent)
  | EventsFileState.absent, _ => Except.ok []
  | EventsFileState.unreadable m, _ => Except.error m
  | EventsFileState.present events, limit => Except.ok (pySliceFrom (-limit) events)

/-- `get_workflow_status` tool wrapper: missing file yields the empty dict;
an exception while reading or parsing yields the error object. -/
def get_workflow_status_tool : EventsFileState → Option String → Except String (List (Option String × WStatus))
  | EventsFileState.absent, _ => Except.ok []
  | EventsFileState.unreadable m, _ => Except.error m
  | EventsFileState.present events, workflow_name => Except.ok (get_workflow_status events workflow_name)

/-! ## Concrete sample values used by closed instances -/

/-- A successful name-status command result with two changed files. -/
def fR0 : CommandResult := { stdout := "M\tserver.py\nA\tnew.py", stderr := "", exitCode := 0 }

/-- A successful, empty diff command result. -/
def dR0 : CommandResult := { stdout := "", stderr := "", exitCode := 0 }

/-- A failed command result as produced by a base ref that does not resolve. -/
def refMissingR : CommandResult :=
  { stdout := "", stderr := "fatal: ambiguous argument", exitCode := 128 }

/-- A failed command result of an unrelated kind. -/
def otherFailR : CommandResult :=
  { stdout := "", stderr := "fatal: not a git repository", exitCode := 129 }

/-- The analysis result for `fR0` without a diff. -/
def rC5 : BuildAnalysis :=
  { base_branch := "main", files_changed := 2,
    files := [{ status := "M", filename := "server.py" }, { status := "A", filename := "new.py" }],
    diff := none, diff_truncated := none, total_diff_lines := none,
    shown_diff_lines := none, truncation_message := none, diff_error := none }

/-- A loaded feature template entry. -/
def featT : TemplateEntry :=
  { filename := "feature.md", name := "feature", type := "feature",
    content := some ("Feature template"), error := none }

/-- A loaded refactor template entry. -/
def refT : TemplateEntry :=
  { filename := "refactor.md", name := "refactor", type := "refactor",
    content := some ("Refactor template"), error := none }

/-- The suggestion computed for declared type fix over `[featT, refT]`. -/
def c3SuggestRes : SuggestResult :=
  { changes_summary := "s", change_type := "fix", recommended_type := some ("feature"),
    template := some featT, available_templates := ["feature", "refactor"] }

/-- The suggestion computed for declared type zzz over `[featT]`. -/
def c4SuggestRes : SuggestResult :=
  { changes_summary := "s", change_type := "zzz", recommended_type := some ("feature"),
    template := some featT, available_templates := ["feature"] }

/-- A filesystem where only `bug.md` is unreadable. -/
def rdBugMissing : String → Option String :=
  fun n => if n = "bug.md" then none else some ("x")

/-- A ci event with status queued at timestamp T. -/
def evQ : WEvent :=
  { workflow_run := some { name := some ("ci"), status := some ("queued") }, timestamp := "T" }

/-- A ci event with status completed at the same timestamp T, later in log
order. -/
def evC : WEvent :=
  { workflow_run := some { name := some ("ci"), status := some ("completed") }, timestamp := "T" }

/-- A deploy event. -/
def evA : WEvent :=
  { workflow_run := some { name := some ("deploy"), status := some ("queued") }, timestamp := "t1" }

theorem pyJoin_pySplit (sep : Char) (s : String) : pyJoin sep (pySplit sep s) = s := by
  unfold pyJoin pySplit
  rw [List.map_map]
  have h : (String.data ∘ fun cs => String.mk cs) = id := rfl
  rw [h, List.map_id, List.intercalate_splitOn]

theorem lexLt_trans : ∀ a b c : List Char,
    lexLt a b = true → lexLt b c = true → lexLt a c = true := by
  intro a
  induction a with
  | nil =>
    intro b c hab hbc
    cases b with
    | nil => simp [lexLt] at hab
    | cons y bs =>
      cases c with
      | nil => simp [lexLt] at hbc
      | cons z cs => simp [lexLt]
  | cons x as ih =>
    intro b c hab hbc
    cases b with
    | nil => simp [lexLt] at hab
    | cons y bs =>
      cases c with
      | nil => simp [lexLt] at hbc
      | cons z cs =>
        simp only [lexLt] at hab hbc ⊢
        rcases lt_trichotomy x y with hxy | hxy | hxy
        · rcases lt_trichotomy y z with hyz | hyz | hyz
          · simp [lt_trans hxy hyz]
          · subst hyz
            simp [hxy]
          · rw [if_neg (not_lt.mpr (le_of_lt hyz)), if_pos hyz] at hbc
            simp at hbc
        · subst hxy
          rw [if_neg (lt_irrefl x), if_neg (lt_irrefl x)] at hab
          rcases lt_trichotomy x z with hxz | hxz | hxz
          · simp [hxz]
          · subst hxz
            rw [if_neg (lt_irrefl x), if_neg (lt_irrefl x)] at hbc ⊢
            exact ih bs cs hab hbc
          · rw [if_neg (not_lt.mpr (le_of_lt hxz)), if_pos hxz] at hbc
            simp at hbc
        · rw [if_neg (not_lt.mpr (le_of_lt hxy)), if_pos hxy] at hab
          simp at hab

theorem lexLt_false_trans : ∀ a b c : List Char,
    lexLt a b = false → lexLt b c = false → lexLt a c = false := by
  intro a
  induction a with
  | nil =>
    intro b c hab hbc
    cases b with
    | nil =>
      cases c with
      | nil => rfl
      | cons z cs => simp [lexLt] at hbc
    | cons y bs => simp [lexLt] at hab
  | cons x as ih =>
    intro b c hab hbc
    cases c with
    | nil => rfl
    | cons z cs =>
      cases b with
      | nil => simp [lexLt] at hbc
      | cons y bs =>
        simp only [lexLt] at hab hbc ⊢
        rcases lt_trichotomy x y with hxy | hxy | hxy
        · rw [if_pos hxy] at hab
          simp at hab
        · subst hxy
          rw [if_neg (lt_irrefl x), if_neg (lt_irrefl x)] at hab
          rcases lt_trichotomy x z with hxz | hxz | hxz
          · rw [if_pos hxz] at hbc
            simp at hbc
          · subst hxz
            rw [if_neg (lt_irrefl x), if_neg (lt_irrefl x)] at hbc ⊢
            exact ih bs cs hab hbc
          · rw [if_neg (not_lt.mpr (le_of_lt hxz)), if_pos hxz]
        · rcases lt_trichotomy y z with hyz | hyz | hyz
          · rw [if_pos hyz] at hbc
            simp at hbc
          · subst hyz
            rw [if_neg (not_lt.mpr (le_of_lt hxy)), if_pos hxy]
          · have hzx : z < x := lt_trans hyz hxy
            rw [if_neg (not_lt.mpr (le_of_lt hzx)), if_pos hzx]

theorem strAppend_empty (s : String) : s ++ ("") = s := by
  cases s with
  | mk data =>
    show String.mk (data ++ []) = String.mk data
    rw [List.append_nil]

theorem strEmpty_append (s : String) : ("") ++ s = s := by
  cases s with
  | mk data =>
    show String.mk ([] ++ data) = String.mk data
    rw [List.nil_append]

theorem findSome?_eq_none_iff {α β : Type} (f : α → Option β) :
    ∀ l : List α, l.findSome? f = none ↔ ∀ a ∈ l, f a = none := by
  intro l
  induction l with
  | nil => simp [List.findSome?]
  | cons x xs ih =>
    cases hfx : f x with
    | some b => simp [List.findSome?, hfx]
    | none => simp [List.findSome?, hfx, ih]

theorem findSome?_eq_some_split {α β : Type} (f : α → Option β) :
    ∀ (l : List α) (b : β), l.findSome? f = some b →
      ∃ l₁ a l₂, l = l₁ ++ a :: l₂ ∧ f a = some b ∧ ∀ x ∈ l₁, f x = none := by
  intro l
  induction l with
  | nil =>
    intro b h
    simp [List.findSome?] at h
  | cons x xs ih =>
    intro b h
    cases hfx : f x with
    | some c =>
      simp only [List.findSome?, hfx] at h
      refine ⟨[], x, xs, rfl, ?_, ?_⟩
      · rw [hfx, h]
      · intro y hy
        cases hy
    | none =>
      simp only [List.findSome?, hfx] at h
      obtain ⟨l₁, a, l₂, hsplit, hfa, hnone⟩ := ih b h
      refine ⟨x :: l₁, a, l₂, by rw [hsplit, List.cons_append], hfa, ?_⟩
      intro y hy
      rcases List.mem_cons.mp hy with hy | hy
      · rw [hy, hfx]
      · exact hnone y hy

theorem length_insertByName (e : TemplateEntry) :
    ∀ l, (insertByName e l).length = l.length + 1 := by
  intro l
  induction l with
  | nil => rfl
  | cons x xs ih =>
    simp only [insertByName]
    cases hc : pyStrLe x.name e.name with
    | true => simp [ih]
    | false => simp

theorem mem_insertByName (e a : TemplateEntry) :
    ∀ l, a ∈ insertByName e l ↔ a = e ∨ a ∈ l := by
  intro l
  induction l with
  | nil => simp [insertByName]
  | cons x xs ih =>
    simp only [insertByName]
    cases hc : pyStrLe x.name e.name with
    | true =>
      rw [if_pos rfl]
      simp only [List.mem_cons, ih]
      try tauto
    | false =>
      rw [if_neg Bool.false_ne_true]
      simp only [List.mem_cons]
      try tauto

theorem length_sortByName_aux :
    ∀ (l : List TemplateEntry) (acc : List TemplateEntry),
      (l.foldl (fun acc e => insertByName e acc) acc).length = acc.length + l.length := by
  intro l
  induction l with
  | nil => intro acc; simp
  | cons x xs ih =>
    intro acc
    rw [List.foldl_cons, ih, length_insertByName, List.length_cons]
    omega

theorem length_sortByName (l : List TemplateEntry) : (sortByName l).length = l.length := by
  unfold sortByName
  rw [length_sortByName_aux]
  simp

theorem mem_sortByName_aux :
    ∀ (l : List TemplateEntry) (acc : List TemplateEntry) (a : TemplateEntry),
      a ∈ l.foldl (fun acc e => insertByName e acc) acc ↔ a ∈ acc ∨ a ∈ l := by
  intro l
  induction l with
  | nil => intro acc a; simp
  | cons x xs ih =>
    intro acc a
    rw [List.foldl_cons, ih, mem_insertByName]
    simp only [List.mem_cons]
    tauto

theorem mem_sortByName (l : List TemplateEntry) (a : TemplateEntry) :
    a ∈ sortByName l ↔ a ∈ l := by
  unfold sortByName
  rw [mem_sortByName_aux]
  simp

theorem countOf_cons (k k₀ : String) (n : Nat) (rest : List (String × Nat)) :
    countOf k ((k₀, n) :: rest) = if (k₀ == k) = true then n else countOf k rest := by
  cases hc : k₀ == k with
  | true => simp [countOf, List.find?, hc]
  | false => simp [countOf, List.find?, hc]

theorem countOf_bumpCount_self (k : String) :
    ∀ l, countOf k (bumpCount k l) = countOf k l + 1 := by
  intro l
  induction l with
  | nil => simp [bumpCount, countOf, List.find?]
  | cons p rest ih =>
    obtain ⟨k₀, n⟩ := p
    simp only [bumpCount]
    cases hc : k₀ == k with
    | true =>
      rw [if_pos rfl, countOf_cons, countOf_cons]
      simp [hc]
    | false =>
      rw [if_neg Bool.false_ne_true, countOf_cons, countOf_cons]
      simp [hc, ih]

theorem countOf_bumpCount_ne (k k₁ : String) (hne : k₁ ≠ k) :
    ∀ l, countOf k (bumpCount k₁ l) = countOf k l := by
  intro l
  induction l with
  | nil =>
    simp [bumpCount, countOf, List.find?, beq_eq_false_iff_ne.mpr hne]
  | cons p rest ih =>
    obtain ⟨k₀, n⟩ := p
    simp only [bumpCount]
    cases hc : k₀ == k₁ with
    | true =>
      rw [if_pos rfl, countOf_cons, countOf_cons]
      have hk₀ : k₀ = k₁ := beq_iff_eq.mp hc
      have hne2 : ¬ ((k₀ == k) = true) := fun hc2 => hne (hk₀ ▸ beq_iff_eq.mp hc2)
      rw [if_neg hne2, if_neg hne2]
    | false =>
      rw [if_neg Bool.false_ne_true, countOf_cons, countOf_cons]
      cases hck : k₀ == k with
      | true => simp
      | false => simp [ih]

theorem total_files_foldl :
    ∀ (files : List ChangedFile) (p : GPatterns),
      (files.foldl patternStep p).total_files = p.total_files := by
  intro files
  induction files with
  | nil => intro p; rfl
  | cons f fs ih =>
    intro p
    rw [List.foldl_cons, ih]
    rfl

theorem change_types_foldl :
    ∀ (files : List ChangedFile) (p : GPatterns) (st : String),
      countOf st (files.foldl patternStep p).change_types =
        countOf st p.change_types + (files.filter (fun f => f.status == st)).length := by
  intro files
  induction files with
  | nil => intro p st; simp
  | cons f fs ih =>
    intro p st
    rw [List.foldl_cons, ih]
    rw [show (patternStep p f).change_types = bumpCount f.status p.change_types from rfl]
    by_cases h : f.status = st
    · subst h
      rw [countOf_bumpCount_self]
      simp [List.filter_cons, List.length_cons]
      omega
    · rw [countOf_bumpCount_ne st f.status h, List.filter_cons, if_neg]
      exact fun hc => h (beq_iff_eq.mp hc)

theorem ghaLoadTemplates_ok_iff (rd : String → Option String) :
    ∀ l : List (String × String),
      (∃ ts, ghaLoadTemplates rd l = Except.ok ts) ↔ ∀ p ∈ l, (rd p.1).isSome = true := by
  intro l
  induction l with
  | nil => simp [ghaLoadTemplates]
  | cons p rest ih =>
    cases hr : rd p.1 with
    | none =>
      simp only [ghaLoadTemplates, hr]
      constructor
      · rintro ⟨ts, hts⟩
        cases hts
      · intro h
        have := h p (List.mem_cons_self p rest)
        rw [hr] at this
        cases this
    | some c =>
      simp only [ghaLoadTemplates, hr]
      cases hrest : ghaLoadTemplates rd rest with
      | ok ts =>
        constructor
        · intro _
          intro q hq
          rcases List.mem_cons.mp hq with hq | hq
          · rw [hq, hr]; rfl
          · exact (ih.mp ⟨ts, hrest⟩) q hq
        · intro _
          exact ⟨_, rfl⟩
      | error e =>
        constructor
        · rintro ⟨ts, hts⟩
          cases hts
        · intro h
          have : ∃ ts, ghaLoadTemplates rd rest = Except.ok ts :=
            ih.mpr (fun q hq => h q (List.mem_cons_of_mem p hq))
          obtain ⟨ts, hts⟩ := this
          rw [hts] at hrest
          cases hrest

theorem alookup_append_of_none (k : Option String) (v : WStatus) (k₁ : Option String) :
    ∀ l, alookup k l = none →
      alookup k (l ++ [(k₁, v)]) = if k₁ = k then some v else none := by
  intro l
  induction l with
  | nil => intro _; rfl
  | cons p rest ih =>
    intro h
    obtain ⟨k₀, v₀⟩ := p
    simp only [alookup, List.cons_append] at h ⊢
    by_cases hk : k₀ = k
    · rw [if_pos hk] at h
      cases h
    · rw [if_neg hk] at h ⊢
      exact ih h

theorem alookup_append_of_some (k : Option String) :
    ∀ (l l₂ : List (Option String × WStatus)) (w : WStatus),
      alookup k l = some w → alookup k (l ++ l₂) = some w := by
  intro l
  induction l with
  | nil =>
    intro l₂ w h
    cases h
  | cons p rest ih =>
    intro l₂ w h
    obtain ⟨k₀, v₀⟩ := p
    simp only [alookup, List.cons_append] at h ⊢
    by_cases hk : k₀ = k
    · rw [if_pos hk] at h ⊢
      exact h
    · rw [if_neg hk] at h ⊢
      exact ih l₂ w h

theorem alookup_areplace_self (k : Option String) (v : WStatus) :
    ∀ l p, alookup k l = some p → alookup k (areplace k v l) = some v := by
  intro l
  induction l with
  | nil =>
    intro p h
    cases h
  | cons q rest ih =>
    intro p h
    obtain ⟨k₀, v₀⟩ := q
    simp only [alookup, areplace] at h ⊢
    by_cases hk : k₀ = k
    · rw [if_pos hk]
      simp only [alookup, if_pos hk]
    · rw [if_neg hk] at h
      rw [if_neg hk]
      simp only [alookup, if_neg hk]
      exact ih p h

theorem alookup_areplace_ne (k k₁ : Option String) (v : WStatus) (hne : k ≠ k₁) :
    ∀ l, alookup k (areplace k₁ v l) = alookup k l := by
  intro l
  induction l with
  | nil => rfl
  | cons q rest ih =>
    obtain ⟨k₀, v₀⟩ := q
    simp only [areplace, alookup]
    by_cases hk : k₀ = k₁
    · have hk₀ : k₀ ≠ k := fun h => hne (h ▸ hk)
      rw [if_pos hk]
      simp only [alookup, if_neg hk₀]
    · rw [if_neg hk]
      simp only [alookup]
      by_cases hk₀ : k₀ = k
      · rw [if_pos hk₀, if_pos hk₀]
      · rw [if_neg hk₀, if_neg hk₀]
        exact ih

theorem alookup_statusStep_self (acc : List (Option String × WStatus)) (e : WEvent) :
    alookup (runName e) (statusStep acc e) = best1 (alookup (runName e) acc) e := by
  cases h : alookup (runName e) acc with
  | none =>
    have h2 := alookup_append_of_none (runName e) (statusOf e) (runName e) acc h
    rw [if_pos rfl] at h2
    simp only [statusStep, best1, h]
    exact h2
  | some p =>
    simp only [statusStep, best1, h]
    cases hb : pyStrLt p.timestamp e.timestamp with
    | true =>
      rw [if_pos rfl, if_pos rfl]
      exact alookup_areplace_self (runName e) (statusOf e) acc p h
    | false =>
      rw [if_neg Bool.false_ne_true, if_neg Bool.false_ne_true]
      exact h

theorem alookup_statusStep_ne (k : Option String) (acc : List (Option String × WStatus))
    (e : WEvent) (hne : k ≠ runName e) :
    alookup k (statusStep acc e) = alookup k acc := by
  cases h : alookup (runName e) acc with
  | none =>
    simp only [statusStep, h]
    cases hl : alookup k acc with
    | some w => exact alookup_append_of_some k acc [(runName e, statusOf e)] w hl
    | none =>
      rw [alookup_append_of_none k (statusOf e) (runName e) acc hl]
      rw [if_neg (fun hh => hne hh.symm)]
  | some p =>
    simp only [statusStep, h]
    cases hb : pyStrLt p.timestamp e.timestamp with
    | true =>
      rw [if_pos rfl]
      exact alookup_areplace_ne k (runName e) (statusOf e) hne acc
    | false =>
      rw [if_neg Bool.false_ne_true]

theorem mergeBest_cons (cur : Option WStatus) (e : WEvent) (l : List WEvent) :
    mergeBest cur (e :: l) = mergeBest (best1 cur e) l := rfl

theorem alookup_foldl_statusStep :
    ∀ (evs : List WEvent) (acc : List (Option String × WStatus)) (k : Option String),
      alookup k (evs.foldl statusStep acc) =
        mergeBest (alookup k acc) (evs.filter (fun e => decide (runName e = k))) := by
  intro evs
  induction evs with
  | nil => intro acc k; rfl
  | cons e evs ih =>
    intro acc k
    rw [List.foldl_cons, ih, List.filter_cons]
    by_cases hk : runName e = k
    · rw [if_pos (by simpa using hk), mergeBest_cons, ← hk, alookup_statusStep_self]
    · rw [if_neg (by simpa using hk), alookup_statusStep_ne k acc e (fun hh => hk hh.symm)]

theorem firstMaxTs_mem : ∀ (l : List WEvent) (e : WEvent), firstMaxTs l = some e → e ∈ l := by
  intro l
  induction l with
  | nil =>
    intro e h
    cases h
  | cons x rest ih =>
    intro e h
    cases hm : firstMaxTs rest with
    | none =>
      simp only [firstMaxTs, hm] at h
      cases h
      exact List.mem_cons_self x rest
    | some m =>
      simp only [firstMaxTs, hm] at h
      cases hb : pyStrLt x.timestamp m.timestamp with
      | true =>
        rw [if_pos hb] at h
        cases h
        exact List.mem_cons_of_mem x (ih e hm)
      | false =>
        rw [if_neg (fun hc => Bool.false_ne_true (hb ▸ hc))] at h
        cases h
        exact List.mem_cons_self x rest

theorem statusOf_timestamp (e : WEvent) : (statusOf e).timestamp = e.timestamp := rfl

theorem mergeBest_some_eq :
    ∀ (l : List WEvent) (p : WStatus),
      mergeBest (some p) l = some (match firstMaxTs l with
        | none => p
        | some m => if pyStrLt p.timestamp m.timestamp = true then statusOf m else p) := by
  intro l
  induction l with
  | nil => intro p; rfl
  | cons e r ih =>
    intro p
    rw [mergeBest_cons]
    cases hb1 : pyStrLt p.timestamp e.timestamp with
    | true =>
      have hb : best1 (some p) e = some (statusOf e) := by simp [best1, hb1]
      rw [hb, ih]
      cases hm : firstMaxTs r with
      | none =>
        simp only [firstMaxTs, hm]
        rw [if_pos hb1]
      | some m =>
        simp only [firstMaxTs, hm, statusOf_timestamp]
        by_cases hb2 : pyStrLt e.timestamp m.timestamp = true
        · rw [if_pos hb2, if_pos hb2]
          have h3 : pyStrLt p.timestamp m.timestamp = true := lexLt_trans _ _ _ hb1 hb2
          show some (statusOf m) = some (if pyStrLt p.timestamp m.timestamp = true then statusOf m else p)
          rw [if_pos h3]
        · rw [if_neg hb2, if_neg hb2]
          show some (statusOf e) = some (if pyStrLt p.timestamp e.timestamp = true then statusOf e else p)
          rw [if_pos hb1]
    | false =>
      have hb : best1 (some p) e = some p := by simp [best1, hb1]
      rw [hb, ih]
      have hnb1 : ¬ (pyStrLt p.timestamp e.timestamp = true) :=
        fun hc => Bool.false_ne_true (hb1 ▸ hc)
      cases hm : firstMaxTs r with
      | none =>
        simp only [firstMaxTs, hm]
        rw [if_neg hnb1]
      | some m =>
        simp only [firstMaxTs, hm]
        by_cases hb2 : pyStrLt e.timestamp m.timestamp = true
        · rw [if_pos hb2]
        · rw [if_neg hb2]
          have hb2f : pyStrLt e.timestamp m.timestamp = false := by
            cases hx : pyStrLt e.timestamp m.timestamp
            · rfl
            · exact absurd hx hb2
          have h3 : pyStrLt p.timestamp m.timestamp = false := lexLt_false_trans _ _ _ hb1 hb2f
          have hn3 : ¬ (pyStrLt p.timestamp m.timestamp = true) :=
            fun hc => Bool.false_ne_true (h3 ▸ hc)
          rw [if_neg hn3]
          show some p = some (if pyStrLt p.timestamp e.timestamp = true then statusOf e else p)
          rw [if_neg hnb1]

theorem mergeBest_none_eq :
    ∀ l : List WEvent, mergeBest none l = (firstMaxTs l).map statusOf := by
  intro l
  cases l with
  | nil => rfl
  | cons e r =>
    rw [mergeBest_cons]
    have hb : best1 none e = some (statusOf e) := rfl
    rw [hb, mergeBest_some_eq r (statusOf e)]
    cases hm : firstMaxTs r with
    | none =>
      simp only [firstMaxTs, hm]
      rfl
    | some m =>
      simp only [firstMaxTs, hm, statusOf_timestamp]
      by_cases hb2 : pyStrLt e.timestamp m.timestamp = true
      · rw [if_pos hb2, if_pos hb2]
        rfl
      · rw [if_neg hb2, if_neg hb2]
        rfl

theorem foldl_add_eq_sum (g : SpecFileChange → Nat) :
    ∀ (files : List SpecFileChange) (a : Nat),
      files.foldl (fun acc f => acc + g f) a = a + (files.map g).sum := by
  intro files
  induction files with
  | nil => intro a; simp
  | cons f fs ih =>
    intro a
    rw [List.foldl_cons, ih, List.map_cons, List.sum_cons]
    omega

/-- C1 (amended).  In both variants of `analyze_file_changes`, the diff is
truncated if and only if its newline-split line count exceeds
`max_diff_lines`, the included lines are the first `min(total, max_diff_lines)`
of them, and the totals are reported exactly.  In the
github-actions-integration variant the human-readable notice is appended to
the payload text itself (for `max_diff_lines = 0` the text is exactly the
notice); in the build-mcp-server variant the text holds exactly the included
lines with NO notice appended — the notice is reported in the separate
`truncation_message` key, present exactly when the diff was truncated, and
`shown_diff_lines` is present exactly when the diff was truncated. -/
theorem c1_diff_payload_amended :
    (∀ (s : String) (max_diff_lines : Nat),
      (ghaDiffSection s max_diff_lines).truncated =
        decide ((pySplit '\n' s).length > max_diff_lines) ∧
      (ghaDiffSection s max_diff_lines).text =
        pyJoin '\n' ((pySplit '\n' s).take max_diff_lines) ++
          (if (pySplit '\n' s).length > max_diff_lines then
            ghaNotice max_diff_lines (pySplit '\n' s).length else (""))) ∧
    (∀ s : String, 0 < (pySplit '\n' s).length →
      (ghaDiffSection s 0).truncated = true ∧
      (ghaDiffSection s 0).text = ghaNotice 0 (pySplit '\n' s).length) ∧
    (∀ (s : String) (max_diff_lines : Nat),
      (buildDiffSection s max_diff_lines).diff =
        some (pyJoin '\n' ((pySplit '\n' s).take max_diff_lines)) ∧
      (buildDiffSection s max_diff_lines).diff_truncated =
        some (decide ((pySplit '\n' s).length > max_diff_lines)) ∧
      (buildDiffSection s max_diff_lines).total_diff_lines =
        some ((pySplit '\n' s).length) ∧
      (buildDiffSection s max_diff_lines).shown_diff_lines =
        (if (pySplit '\n' s).length > max_diff_lines then some max_diff_lines else none) ∧
      (buildDiffSection s max_diff_lines).truncation_message =
        (if (pySplit '\n' s).length > max_diff_lines then
          some (buildTruncMsg max_diff_lines ((pySplit '\n' s).length)) else none)) ∧
    (∀ (s : String) (max_diff_lines : Nat),
      ((pySplit '\n' s).take max_diff_lines).length =
        min ((pySplit '\n' s).length) max_diff_lines) := by
  refine ⟨?_, ?_, ?_, ?_⟩
  · intro s n
    by_cases h : (pySplit '\n' s).length > n
    · constructor
      · simp [ghaDiffSection, h]
      · simp [ghaDiffSection, h]
    · have htake : (pySplit '\n' s).take n = pySplit '\n' s :=
        List.take_of_length_le (Nat.le_of_not_lt h)
      constructor
      · simp [ghaDiffSection, h]
      · simp [ghaDiffSection, h, htake, pyJoin_pySplit, strAppend_empty]
  · intro s h0
    have hjoin : pyJoin '\n' ([] : List String) = ("") := rfl
    constructor
    · simp [ghaDiffSection, h0]
    · simp [ghaDiffSection, h0, List.take_zero, hjoin, strEmpty_append]
  · intro s n
    by_cases h : (pySplit '\n' s).length > n
    · refine ⟨?_, ?_, ?_, ?_, ?_⟩ <;> simp [buildDiffSection, h]
    · have htake : (pySplit '\n' s).take n = pySplit '\n' s :=
        List.take_of_length_le (Nat.le_of_not_lt h)
      refine ⟨?_, ?_, ?_, ?_, ?_⟩ <;>
        simp [buildDiffSection, h, htake, pyJoin_pySplit]
  · intro s n
    rw [List.length_take]
    exact Nat.min_comm n _

/-- C1 counterexample.  On a three-line diff with `max_diff_lines = 0`, the
build-mcp-server variant marks the payload truncated but leaves the payload
text empty: the (non-empty) truncation notice lives only in the separate
`truncation_message` key, so the text does not contain only the truncation
notice as claimed (it contains nothing at all). -/
theorem c1_counterexample :
    (buildDiffSection ("a\nb\nc") 0).diff = some ("") ∧
    (buildDiffSection ("a\nb\nc") 0).diff_truncated = some true ∧
    (buildDiffSection ("a\nb\nc") 0).truncation_message =
      some ("Diff truncated to 0 lines (total: 3 lines)") ∧
    ("" : String) ≠ ("Diff truncated to 0 lines (total: 3 lines)") := by
  refine ⟨?_, ?_, ?_, ?_⟩ <;> decide

/-- C1 witness: the amended theorem applied to the one-line diff `x` with
budget zero. -/
theorem c1_witness :
    (ghaDiffSection ("x") 0).truncated = true ∧
    (ghaDiffSection ("x") 0).text = ghaNotice 0 ((pySplit '\n' ("x")).length) :=
  c1_diff_payload_amended.2.1 ("x") (by decide)

/-- C5.  The aggregate counters are the exact count or sum over the parsed
file sequence: `files_changed` equals the length of the returned file list,
`_analyze_file_patterns` reports `total_files` as the length of its input
and per-status counts equal to the exact filter counts, and the
spec-modelled `total_additions`/`total_deletions` aggregates equal the sums
over the FileChange sequence. -/
theorem c5_aggregates :
    (∀ base_branch filesResult diffResult include_diff max_diff_lines r,
      analyze_file_changes_build base_branch filesResult diffResult include_diff max_diff_lines =
        Except.ok r → r.files_changed = r.files.length) ∧
    (∀ changed_files, (analyze_file_patterns changed_files).total_files = changed_files.length) ∧
    (∀ changed_files st,
      countOf st (analyze_file_patterns changed_files).change_types =
        (changed_files.filter (fun f => f.status == st)).length) ∧
    (∀ files : List SpecFileChange,
      totalAdditions files = (files.map (fun f => f.additions)).sum ∧
      totalDeletions files = (files.map (fun f => f.deletions)).sum) := by
  refine ⟨?_, ?_, ?_, ?_⟩
  · intro bb fR dR inc max r h
    unfold analyze_file_changes_build at h
    split at h
    · exact Except.noConfusion h
    · split at h
      · split at h
        · injection h with h2
          subst h2
          rfl
        · injection h with h2
          subst h2
          rfl
      · injection h with h2
        subst h2
        rfl
  · intro files
    unfold analyze_file_patterns
    rw [total_files_foldl]
  · intro files st
    unfold analyze_file_patterns
    rw [change_types_foldl]
    simp [countOf]
  · intro files
    constructor
    · exact (foldl_add_eq_sum (fun f => f.additions) files 0).trans (Nat.zero_add _)
    · exact (foldl_add_eq_sum (fun f => f.deletions) files 0).trans (Nat.zero_add _)

/-- C5 witness: the aggregate equation instantiated on a concrete
two-file analysis. -/
theorem c5_witness : rC5.files_changed = rC5.files.length :=
  c5_aggregates.1 ("main") fR0 dR0 false 500 rC5 rfl

/-- C6 (amended).  When the name-status command fails (as it does when the
base ref does not resolve), both variants of `analyze_file_changes` fail
fast: the result is an error envelope carrying the command stderr and no
ChangeSet, and it does not depend on the downstream command results at all.
The envelope however carries only a fixed generic message (`Failed to get
changed files`, resp. a `Git error:` prefix), not a `ReferenceNotFound`
kind: every non-zero exit produces the same kind. -/
theorem c6_ref_failure_amended :
    (∀ base_branch filesResult diffResult diffResult₂ include_diff max_diff_lines,
      filesResult.exitCode ≠ 0 →
      analyze_file_changes_build base_branch filesResult diffResult include_diff max_diff_lines =
        Except.error (("Failed to get changed files"), pyStrip filesResult.stderr) ∧
      analyze_file_changes_build base_branch filesResult diffResult include_diff max_diff_lines =
        analyze_file_changes_build base_branch filesResult diffResult₂ include_diff max_diff_lines) ∧
    (∀ base_branch filesResult statResult statResult₂ diffResult diffResult₂
        commitsResult commitsResult₂ include_diff max_diff_lines,
      filesResult.exitCode ≠ 0 →
      analyze_file_changes_gha base_branch filesResult statResult diffResult commitsResult
          include_diff max_diff_lines =
        Except.error (("Git error: ") ++ filesResult.stderr) ∧
      analyze_file_changes_gha base_branch filesResult statResult diffResult commitsResult
          include_diff max_diff_lines =
        analyze_file_changes_gha base_branch filesResult statResult₂ diffResult₂ commitsResult₂
          include_diff max_diff_lines) := by
  constructor
  · intro bb fR dR dR₂ inc max h
    constructor
    · unfold analyze_file_changes_build
      rw [if_pos h]
    · unfold analyze_file_changes_build
      rw [if_pos h, if_pos h]
  · intro bb fR sR sR₂ dR dR₂ cR cR₂ inc max h
    constructor
    · unfold analyze_file_changes_gha
      rw [if_pos h]
    · unfold analyze_file_changes_gha
      rw [if_pos h, if_pos h]

/-- C6 counterexample.  A failing ref-not-found run and an unrelated
failure produce error envelopes with the SAME fixed kind, which is the
generic `Failed to get changed files` — not `ReferenceNotFound`. -/
theorem c6_counterexample :
    analyze_file_changes_build ("main") refMissingR dR0 true 500 =
      Except.error (("Failed to get changed files"), ("fatal: ambiguous argument")) ∧
    (("Failed to get changed files") : String) ≠ ("ReferenceNotFound") ∧
    analyze_file_changes_build ("main") otherFailR dR0 true 500 =
      Except.error (("Failed to get changed files"), ("fatal: not a git repository")) := by
  refine ⟨rfl, by decide, rfl⟩

/-- C6 witness: the amended theorem applied to the concrete failing
command result. -/
theorem c6_witness :
    analyze_file_changes_build ("main") refMissingR dR0 true 500 =
      Except.error (("Failed to get changed files"), pyStrip refMissingR.stderr) ∧
    analyze_file_changes_build ("main") refMissingR dR0 true 500 =
      analyze_file_changes_build ("main") refMissingR dR0 true 500 :=
  c6_ref_failure_amended.1 ("main") refMissingR dR0 dR0 true 500 (by decide)

theorem suggest_template_build_ok (cs ct : String) (tms : List TemplateEntry) :
    suggest_template_build cs ct (Except.ok tms) = Except.ok
      { changes_summary := cs, change_type := ct,
        recommended_type :=
          (match (prioritiesFor (pyStrip (pyLower ct))).findSome? (fun ty => lookupLast tms ty) with
            | some t => some t
            | none => tms.head?).map (fun t : TemplateEntry => t.type),
        template :=
          match (prioritiesFor (pyStrip (pyLower ct))).findSome? (fun ty => lookupLast tms ty) with
          | some t => some t
          | none => tms.head?,
        available_templates := tms.map (fun t => t.type) } := rfl

/-- C2.  Modelled from the spec: the classifier evaluates its ordered rules
first-match-wins — 100% test-indicator files give `test`/high, at least 80%
documentation files give `docs`/high, configuration outnumbering source
gives `refactor`/medium, any added file gives `feature`/high, and otherwise
`refactor`/medium — together with the two concrete classifier scenarios of
the spec. -/
theorem c2_classifier_rules :
    (∀ files : List SpecFileChange,
      0 < files.length →
      (files.filter (fun f => isTestIndicator f.path)).length = files.length →
      classify files = { recommended_type := "test", confidence := Confidence.high }) ∧
    (∀ files : List SpecFileChange,
      ¬(0 < files.length ∧
        (files.filter (fun f => isTestIndicator f.path)).length = files.length) →
      80 * files.length ≤ 100 * (files.filter (fun f => isDocIndicator f.path)).length →
      classify files = { recommended_type := "docs", confidence := Confidence.high }) ∧
    (∀ files : List SpecFileChange,
      ¬(0 < files.length ∧
        (files.filter (fun f => isTestIndicator f.path)).length = files.length) →
      ¬(80 * files.length ≤ 100 * (files.filter (fun f => isDocIndicator f.path)).length) →
      (files.filter (fun f => isSourceFile f.path)).length <
        (files.filter (fun f => isConfigFile f.path)).length →
      classify files = { recommended_type := "refactor", confidence := Confidence.medium }) ∧
    (∀ files : List SpecFileChange,
      ¬(0 < files.length ∧
        (files.filter (fun f => isTestIndicator f.path)).length = files.length) →
      ¬(80 * files.length ≤ 100 * (files.filter (fun f => isDocIndicator f.path)).length) →
      ¬((files.filter (fun f => isSourceFile f.path)).length <
        (files.filter (fun f => isConfigFile f.path)).length) →
      files.any (fun f => f.status == FileStatus.added) = true →
      classify files = { recommended_type := "feature", confidence := Confidence.high }) ∧
    (∀ files : List SpecFileChange,
      ¬(0 < files.length ∧
        (files.filter (fun f => isTestIndicator f.path)).length = files.length) →
      ¬(80 * files.length ≤ 100 * (files.filter (fun f => isDocIndicator f.path)).length) →
      ¬((files.filter (fun f => isSourceFile f.path)).length <
        (files.filter (fun f => isConfigFile f.path)).length) →
      ¬(files.any (fun f => f.status == FileStatus.added) = true) →
      classify files = { recommended_type := "refactor", confidence := Confidence.medium }) ∧
    classify [{ path := "a_test.py", status := FileStatus.added, additions := 10, deletions := 0 }] =
      { recommended_type := "test", confidence := Confidence.high } ∧
    classify [{ path := "README.md", status := FileStatus.modified, additions := 0, deletions := 0 },
              { path := "docs/intro.md", status := FileStatus.modified, additions := 0, deletions := 0 }] =
      { recommended_type := "docs", confidence := Confidence.high } := by
  refine ⟨?_, ?_, ?_, ?_, ?_, ?_, ?_⟩
  · intro files h1 h2
    simp only [classify]
    rw [if_pos ⟨h1, h2⟩]
  · intro files hn1 h2
    simp only [classify]
    rw [if_neg hn1, if_pos h2]
  · intro files hn1 hn2 h3
    simp only [classify]
    rw [if_neg hn1, if_neg hn2, if_pos h3]
  · intro files hn1 hn2 hn3 h4
    simp only [classify]
    rw [if_neg hn1, if_neg hn2, if_neg hn3, if_pos h4]
  · intro files hn1 hn2 hn3 hn4
    simp only [classify]
    rw [if_neg hn1, if_neg hn2, if_neg hn3, if_neg hn4]
  · decide
  · decide

/-- C2 witness: the first rule applied to the one-file test change set of
the spec scenario. -/
theorem c2_witness :
    classify [{ path := "a_test.py", status := FileStatus.added, additions := 10, deletions := 0 }] =
      { recommended_type := "test", confidence := Confidence.high } :=
  c2_classifier_rules.1
    [{ path := "a_test.py", status := FileStatus.added, additions := 10, deletions := 0 }]
    (by decide) (by decide)

/-- C3 (amended).  The recommender lowercases and trims the declared type,
walks the priority list of the normalized type, and picks the first
candidate key present in the catalog; the priority table is the claimed one
EXCEPT that `cleanup` and `optimization` are not in the table — like any
unrecognized input they fall back to the list `[input, feature, bug]`. -/
theorem c3_template_mapping_amended :
    (∀ (cs ct : String) (tms : List TemplateEntry) (r : SuggestResult) (t : TemplateEntry),
      suggest_template_build cs ct (Except.ok tms) = Except.ok r →
      r.template = some t →
      (∃ l₁ k l₂, prioritiesFor (pyStrip (pyLower ct)) = l₁ ++ k :: l₂ ∧
        lookupLast tms k = some t ∧ ∀ k₀ ∈ l₁, lookupLast tms k₀ = none) ∨
      ((∀ k ∈ prioritiesFor (pyStrip (pyLower ct)), lookupLast tms k = none) ∧
        tms.head? = some t)) ∧
    (∀ s, type_mapping s = none → prioritiesFor s = [s, "feature", "bug"]) ∧
    type_mapping ("cleanup") = none ∧
    type_mapping ("optimization") = none ∧
    type_mapping ("bug") = some ["bug", "feature", "refactor"] ∧
    type_mapping ("fix") = some ["bug", "feature", "refactor"] ∧
    type_mapping ("feature") = some ["feature", "bug", "refactor"] ∧
    type_mapping ("enhancement") = some ["feature", "bug", "refactor"] ∧
    type_mapping ("docs") = some ["docs", "feature", "refactor"] ∧
    type_mapping ("documentation") = some ["docs", "feature", "refactor"] ∧
    type_mapping ("refactor") = some ["refactor", "feature", "bug"] ∧
    type_mapping ("refactoring") = some ["refactor", "feature", "bug"] ∧
    type_mapping ("test") = some ["test", "feature", "bug"] ∧
    type_mapping ("tests") = some ["test", "feature", "bug"] ∧
    type_mapping ("testing") = some ["test", "feature", "bug"] ∧
    type_mapping ("performance") = some ["performance", "refactor", "feature"] ∧
    type_mapping ("perf") = some ["performance", "refactor", "feature"] ∧
    type_mapping ("security") = some ["security", "bug", "feature"] ∧
    type_mapping ("sec") = some ["security", "bug", "feature"] := by
  refine ⟨?_, ?_, rfl, rfl, rfl, rfl, rfl, rfl, rfl, rfl, rfl, rfl, rfl, rfl, rfl, rfl, rfl, rfl, rfl⟩
  · intro cs ct tms r t h ht
    rw [suggest_template_build_ok] at h
    have h2 := Except.ok.inj h
    have ht2 : (match (prioritiesFor (pyStrip (pyLower ct))).findSome?
        (fun ty => lookupLast tms ty) with
      | some u => some u
      | none => tms.head?) = some t := by
      rw [← h2] at ht
      exact ht
    cases hfs : (prioritiesFor (pyStrip (pyLower ct))).findSome? (fun ty => lookupLast tms ty) with
    | some u =>
      rw [hfs] at ht2
      have ht3 : u = t := Option.some.inj ht2
      subst ht3
      left
      obtain ⟨l₁, k, l₂, hsplit, hfa, hnone⟩ := findSome?_eq_some_split _ _ _ hfs
      exact ⟨l₁, k, l₂, hsplit, hfa, hnone⟩
    | none =>
      rw [hfs] at ht2
      right
      exact ⟨(findSome?_eq_none_iff _ _).mp hfs, ht2⟩
  · intro s h
    unfold prioritiesFor
    rw [h]

/-- C3 counterexample.  The declared type `cleanup` is not in the table:
with a catalog holding `feature` and `refactor` templates the code picks
`feature` (via the unrecognized-input fallback list), while the claimed
table row `cleanup -> [refactor, feature, bug]` would pick `refactor`. -/
theorem c3_counterexample :
    (suggest_template_build ("s") ("cleanup") (Except.ok [featT, refT])).map
      (fun r => r.recommended_type) = Except.ok (some ("feature")) ∧
    (some ("feature") : Option String) ≠ some ("refactor") := by
  exact ⟨rfl, by decide⟩

/-- C3 witness: the selection clause applied to the declared type fix over
the catalog `[featT, refT]`, where the chosen template is the first
present candidate. -/
theorem c3_witness :
    (∃ l₁ k l₂, prioritiesFor (pyStrip (pyLower ("fix"))) = l₁ ++ k :: l₂ ∧
      lookupLast [featT, refT] k = some featT ∧
      ∀ k₀ ∈ l₁, lookupLast [featT, refT] k₀ = none) ∨
    ((∀ k ∈ prioritiesFor (pyStrip (pyLower ("fix"))), lookupLast [featT, refT] k = none) ∧
      List.head? [featT, refT] = some featT) :=
  c3_template_mapping_amended.1 ("s") ("fix") [featT, refT] c3SuggestRes featT rfl rfl

/-- C4 (amended).  Given a loaded catalog the recommender always returns a
result object: with a non-empty catalog the result carries some template,
and when no candidate key of the priority list exists in the catalog the
first catalog entry is substituted.  The code reports no fallback_used
flag, and an EMPTY catalog is not a distinct NoTemplatesAvailable error:
the build-mcp-server variant returns a success object with a null template,
and the github-actions variant raises a bare IndexError. -/
theorem c4_recommender_totality_amended :
    (∀ (cs ct : String) (tms : List TemplateEntry),
      ∃ r, suggest_template_build cs ct (Except.ok tms) = Except.ok r) ∧
    (∀ (cs ct : String) (tms : List TemplateEntry) (r : SuggestResult),
      tms ≠ [] →
      suggest_template_build cs ct (Except.ok tms) = Except.ok r →
      r.template.isSome = true) ∧
    (∀ (cs ct : String) (tms : List TemplateEntry) (r : SuggestResult),
      suggest_template_build cs ct (Except.ok tms) = Except.ok r →
      (∀ k ∈ prioritiesFor (pyStrip (pyLower ct)), lookupLast tms k = none) →
      r.template = tms.head?) ∧
    (∀ cs ct : String,
      suggest_template_build cs ct (Except.ok []) = Except.ok
        { changes_summary := cs, change_type := ct, recommended_type := none,
          template := none, available_templates := [] }) ∧
    (∀ ct : String,
      suggest_template_gha ct [] = Except.error ("IndexError: list index out of range")) := by
  refine ⟨?_, ?_, ?_, ?_, ?_⟩
  · intro cs ct tms
    exact ⟨_, suggest_template_build_ok cs ct tms⟩
  · intro cs ct tms r hne h
    rw [suggest_template_build_ok] at h
    have h2 := Except.ok.inj h
    rw [← h2]
    cases hfs : (prioritiesFor (pyStrip (pyLower ct))).findSome? (fun ty => lookupLast tms ty) with
    | some u => rfl
    | none =>
      cases tms with
      | nil => exact absurd rfl hne
      | cons a as => rfl
  · intro cs ct tms r h hall
    rw [suggest_template_build_ok] at h
    have h2 := Except.ok.inj h
    rw [← h2]
    have hfs : (prioritiesFor (pyStrip (pyLower ct))).findSome? (fun ty => lookupLast tms ty) = none :=
      (findSome?_eq_none_iff _ _).mpr hall
    rw [hfs]
  · intro cs ct
    rw [suggest_template_build_ok]
    have hfs : (prioritiesFor (pyStrip (pyLower ct))).findSome?
        (fun ty => lookupLast ([] : List TemplateEntry) ty) = none :=
      (findSome?_eq_none_iff _ _).mpr (fun a _ => rfl)
    rw [hfs]
    rfl
  · intro ct
    rfl

/-- C4 counterexample.  On an empty loaded catalog the build-mcp-server
recommender returns a SUCCESS object whose template is null — not a
distinct NoTemplatesAvailable error. -/
theorem c4_counterexample :
    suggest_template_build ("s") ("fix") (Except.ok []) = Except.ok
      { changes_summary := "s", change_type := "fix", recommended_type := none,
        template := none, available_templates := [] } ∧
    (suggest_template_build ("s") ("fix") (Except.ok [])).map (fun r => r.template) =
      Except.ok none := by
  exact ⟨rfl, rfl⟩

/-- C4 witness: totality on the one-entry catalog with an unrecognized
declared type. -/
theorem c4_witness : c4SuggestRes.template.isSome = true :=
  c4_recommender_totality_amended.2.1 ("s") ("zzz") [featT] c4SuggestRes (by decide) rfl

/-- C7 (amended).  The build-mcp-server catalog loader behaves as claimed:
with an existing template directory every globbed file yields exactly one
entry (an error entry with the per-template message when the read failed,
a content entry otherwise), and only a missing directory fails the whole
load.  The github-actions-integration loader does NOT: it succeeds exactly
when every declared template file is readable, so one unreadable file
aborts the whole load. -/
theorem c7_template_load_amended :
    (∀ files : List TemplateFile, ∃ entries,
      get_pr_templates_build true files = Except.ok entries ∧
      entries.length = files.length ∧
      (∀ f ∈ files, mkEntry f ∈ entries) ∧
      (∀ f ∈ files, ∀ msg, f.readResult = Except.error msg →
        (mkEntry f).content = none ∧
        (mkEntry f).error = some (("Failed to read template: ") ++ msg)) ∧
      (∀ f ∈ files, ∀ c, f.readResult = Except.ok c →
        (mkEntry f).content = some c ∧ (mkEntry f).error = none)) ∧
    (∀ files : List TemplateFile,
      get_pr_templates_build false files = Except.error ("Templates directory not found")) ∧
    (∀ rd : String → Option String,
      (∃ ts, get_pr_templates_gha rd = Except.ok ts) ↔
        ∀ p ∈ DEFAULT_TEMPLATES_gha, (rd p.1).isSome = true) := by
  refine ⟨?_, ?_, ?_⟩
  · intro files
    refine ⟨sortByName (files.map mkEntry), rfl, ?_, ?_, ?_, ?_⟩
    · rw [length_sortByName, List.length_map]
    · intro f hf
      rw [mem_sortByName]
      exact List.mem_map_of_mem mkEntry hf
    · intro f _ msg hmsg
      unfold mkEntry
      rw [hmsg]
      exact ⟨rfl, rfl⟩
    · intro f _ c hc
      unfold mkEntry
      rw [hc]
      exact ⟨rfl, rfl⟩
  · intro files
    rfl
  · intro rd
    exact ghaLoadTemplates_ok_iff rd DEFAULT_TEMPLATES_gha

/-- C7 counterexample.  With only `bug.md` unreadable (all other template
files readable), the github-actions-integration loader returns an error
and loads nothing — the per-template error is not captured alongside the
other entries, although the template directory is intact. -/
theorem c7_counterexample :
    get_pr_templates_gha rdBugMissing = Except.error ("bug.md") ∧
    rdBugMissing ("feature.md") = some ("x") := by
  exact ⟨rfl, rfl⟩

/-- C7 witness: an all-readable filesystem makes the
github-actions-integration load succeed. -/
theorem c7_witness :
    ∃ ts, get_pr_templates_gha (fun _ => some ("x")) = Except.ok ts :=
  (c7_template_load_amended.2.2 (fun _ => some ("x"))).mpr (fun _ _ => rfl)

/-- C8 (amended).  `get_workflow_status` maps each workflow name (possibly
null) to the status and timestamp of the event whose timestamp is the
GREATEST, ties resolved in favour of the EARLIEST event in log order (the
code replaces an entry only on a strictly greater timestamp); the empty
log yields the empty mapping, and events without a `workflow_run` object
are skipped — events that merely lack a name or status are kept, grouped
under the null name or recorded with a null status, which the per-key
characterisation covers through the optional key type. -/
theorem c8_workflow_status_amended :
    (∀ workflow_name, get_workflow_status [] workflow_name = []) ∧
    (∀ events workflow_name k,
      alookup k (get_workflow_status events workflow_name) =
        (firstMaxTs ((applyStatusFilters events workflow_name).filter
          (fun e => decide (runName e = k)))).map statusOf) ∧
    (∀ e events workflow_name, e.workflow_run = none →
      get_workflow_status (e :: events) workflow_name =
        get_workflow_status events workflow_name) ∧
    (∀ (l₁ : List WEvent) (e : WEvent) (l₂ : List WEvent),
      (∀ x ∈ l₁, pyStrLt x.timestamp e.timestamp = true) →
      (∀ x ∈ l₂, pyStrLt e.timestamp x.timestamp = false) →
      firstMaxTs (l₁ ++ e :: l₂) = some e) := by
  refine ⟨?_, ?_, ?_, ?_⟩
  · intro wn
    cases wn with
    | none => rfl
    | some s =>
      by_cases hs : s = ""
      · simp [get_workflow_status, applyStatusFilters, hs]
      · simp [get_workflow_status, applyStatusFilters, hs]
  · intro events wn k
    unfold get_workflow_status
    rw [alookup_foldl_statusStep]
    have h0 : alookup k [] = none := rfl
    rw [h0, mergeBest_none_eq]
  · intro e events wn h
    have hfilter : (e :: events).filter (fun x => x.workflow_run.isSome) =
        events.filter (fun x => x.workflow_run.isSome) := by
      rw [List.filter_cons, if_neg]
      rw [h]
      exact Bool.false_ne_true
    unfold get_workflow_status applyStatusFilters
    rw [hfilter]
  · intro l₁
    induction l₁ with
    | nil =>
      intro e l₂ _ h₂
      cases hm : firstMaxTs l₂ with
      | none => simp [firstMaxTs, hm]
      | some m =>
        have hmem := firstMaxTs_mem l₂ m hm
        have hfalse := h₂ m hmem
        simp only [List.nil_append, firstMaxTs, hm]
        rw [if_neg (fun hc => Bool.false_ne_true (hfalse ▸ hc))]
    | cons x l₁ ih =>
      intro e l₂ h₁ h₂
      have hrec : firstMaxTs (l₁ ++ e :: l₂) = some e :=
        ih e l₂ (fun y hy => h₁ y (List.mem_cons_of_mem x hy)) h₂
      have hx : pyStrLt x.timestamp e.timestamp = true :=
        h₁ x (List.mem_cons_self x l₁)
      rw [List.cons_append]
      simp only [firstMaxTs]
      erw [hrec]
      show (if pyStrLt x.timestamp e.timestamp = true then some e else some x) = some e
      rw [if_pos hx]

/-- C8 counterexample.  Two events for workflow ci share the timestamp T;
the second in log order carries status completed, yet the mapping keeps
the FIRST (queued): on exact timestamp ties the code resolves to the
earlier event, not to the later one as claimed. -/
theorem c8_counterexample :
    get_workflow_status [evQ, evC] none =
      [(some ("ci"), { status := some ("queued"), timestamp := "T" })] ∧
    ({ status := some ("queued"), timestamp := "T" } : WStatus) ≠
      { status := some ("completed"), timestamp := "T" } := by
  exact ⟨rfl, by decide⟩

/-- C8 witness: the per-key characterisation on a one-event log, and the
maximality property of the reference selector on a singleton. -/
theorem c8_witness :
    alookup (some ("deploy")) (get_workflow_status [evA] none) =
      (firstMaxTs ((applyStatusFilters [evA] none).filter
        (fun e => decide (runName e = some ("deploy"))))).map statusOf ∧
    firstMaxTs [evA] = some evA :=
  ⟨c8_workflow_status_amended.2.1 [evA] none (some ("deploy")),
   c8_workflow_status_amended.2.2.2 [] evA []
     (by intro x hx; cases hx) (by intro x hx; cases hx)⟩

/-- C9 (amended).  For every limit of at least one, `get_recent_actions_events`
returns exactly the most recent `limit` events — the final
`min(limit, length)` entries of the log in log order (a suffix).  (For
`limit = 0` the Python slice `events[-0:]` instead returns the WHOLE log,
which is what forces the lower bound here.) -/
theorem c9_recent_events_amended :
    ∀ (events : List WEvent) (limit : Int), 1 ≤ limit →
      get_recent_actions_events_tool (EventsFileState.present events) limit =
        Except.ok (events.drop (events.length - limit.toNat)) ∧
      (events.drop (events.length - limit.toNat)).length = min limit.toNat events.length ∧
      events.take (events.length - limit.toNat) ++
        events.drop (events.length - limit.toNat) = events := by
  intro events limit h
  refine ⟨?_, ?_, ?_⟩
  · show Except.ok (pySliceFrom (-limit) events) = _
    unfold pySliceFrom
    rw [if_neg (by omega)]
    rw [Int.neg_neg]
  · rw [List.length_drop]
    omega
  · exact List.take_append_drop _ events

/-- C9 counterexample.  With `limit = 0` on a one-event log the tool
returns the whole log (the Python slice `events[-0:]` is `events[0:]`),
not the zero most recent events the claim requires. -/
theorem c9_counterexample :
    get_recent_actions_events_tool (EventsFileState.present [evA]) 0 = Except.ok [evA] ∧
    [evA] ≠ ([] : List WEvent) := by
  exact ⟨rfl, by decide⟩

/-- C9 witness: the amended theorem on a one-event log with limit two. -/
theorem c9_witness :
    get_recent_actions_events_tool (EventsFileState.present [evA]) 2 =
      Except.ok (List.drop (List.length [evA] - Int.toNat 2) [evA]) :=
  (c9_recent_events_amended [evA] 2 (by decide)).1

/-- C10.  A missing events file makes `get_recent_actions_events` return
the empty list and `get_workflow_status` the empty mapping, with no error
reported; an error object arises exactly when reading or parsing an
existing file raises. -/
theorem c10_missing_events_file :
    (∀ limit, get_recent_actions_events_tool EventsFileState.absent limit = Except.ok []) ∧
    (∀ workflow_name,
      get_workflow_status_tool EventsFileState.absent workflow_name = Except.ok []) ∧
    (∀ fs limit, (∃ m, get_recent_actions_events_tool fs limit = Except.error m) ↔
      (∃ m, fs = EventsFileState.unreadable m)) ∧
    (∀ fs workflow_name, (∃ m, get_workflow_status_tool fs workflow_name = Except.error m) ↔
      (∃ m, fs = EventsFileState.unreadable m)) := by
  refine ⟨?_, ?_, ?_, ?_⟩
  · intro limit
    rfl
  · intro wn
    rfl
  · intro fs limit
    cases fs <;> simp [get_recent_actions_events_tool]
  · intro fs wn
    cases fs <;> simp [get_workflow_status_tool]

/-- C10 witness: an unreadable events file is reported as an error. -/
theorem c10_witness :
    ∃ m, get_recent_actions_events_tool (EventsFileState.unreadable ("boom")) 10 =
      Except.error m :=
  (c10_missing_events_file.2.2.1 (EventsFileState.unreadable ("boom")) 10).mpr ⟨("boom"), rfl⟩
